import Mathlib

/-!
Verification of the webhook ingestion gateway (ShopifyWebhooksController,
ShopifyWebhooksService, QueueModule / QueueProcessor).

Shallow embedding conventions:
  - Redis is an association list of (key, value, expiresAtMs) triples; `EX n`
    becomes expiresAt = now + n * 1000, and a read at time `now` sees the
    entry only while now < expiresAt.
  - Header values are `Option String`; an absent header and the empty string
    are both JavaScript-falsy, normalised through `hdrPresent`.
  - The HMAC-SHA256 primitive (node `crypto.createHmac`) is external library
    code; it is embedded as an abstract keyed digest parameter
    `hmacF : String → String → String` (secret → body → base64 digest).
  - `DOMPurify.sanitize` is likewise an abstract `String → String` parameter.
  - Exceptions become `Except`; the mutations performed before a throw are
    kept (state is threaded explicitly), matching JavaScript semantics.
-/

/-- Result values of the JSON.parse model. -/
inductive JsonVal
  | null
  | boolVal (b : Bool)
  | numVal (n : Int)
  | strVal (s : String)
deriving DecidableEq

/-- Minimal model of JSON.parse, restricted to primitive literals; compound
values are never stored by this controller so they are omitted.  The only
value the controller ever writes into the dedup key is the bare string
`processed` (redis.set at line 317 of the controller), which is not valid
JSON: JSON.parse raises SyntaxError on it, modelled here as `none`. -/
def digitsToNat (acc : Nat) : List Char → Option Nat
  | [] => some acc
  | c :: cs => if c.isDigit then digitsToNat (acc * 10 + (c.toNat - 48)) cs else none

/-- Integer JSON numeral (fractional and exponent forms omitted; no stored
value ever uses them). -/
def parseIntLit (s : String) : Option Int :=
  match s.data with
  | [] => none
  | c :: cs =>
    if c == '-' then
      match cs with
      | [] => none
      | _ => (digitsToNat 0 cs).map (fun n => -(n : Int))
    else (digitsToNat 0 (c :: cs)).map (fun n => (n : Int))

def jsonParse (s : String) : Option JsonVal :=
  if s == "null" then some JsonVal.null
  else if s == "true" then some (JsonVal.boolVal true)
  else if s == "false" then some (JsonVal.boolVal false)
  else
    match parseIntLit s with
    | some n => some (JsonVal.numVal n)
    | none =>
      if s.data.length ≥ 2 && (s.data.head? == some ('"')) && (s.data.getLast? == some ('"')) then
        some (JsonVal.strVal (String.mk (s.data.drop 1).dropLast))
      else none

/-- JavaScript truthiness of a parsed JSON value (`if (isProcessed)`). -/
def jsonTruthy : JsonVal → Bool
  | JsonVal.null => false
  | JsonVal.boolVal b => b
  | JsonVal.numVal n => !(n == 0)
  | JsonVal.strVal s => !(s == "")

/-- Redis store model: (key, value, expiresAt in ms). -/
def RedisStore := List (String × String × Int)
deriving instance DecidableEq for RedisStore

/-- redis.get at time `now`: an entry is visible only while unexpired. -/
def redisGet (store : RedisStore) (now : Int) (key : String) : Option String :=
  match store.find? (fun e => e.1 == key) with
  | some e => if now < e.2.2 then some e.2.1 else none
  | none => none

/-- redis.set key value EX ttl (expiry precomputed by the caller). -/
def redisSet (store : RedisStore) (key value : String) (expiresAt : Int) : RedisStore :=
  (key, value, expiresAt) :: store.filter (fun e => !(e.1 == key))

/-- Errors thrown inside the controller's try block
(ShopifyWebhooksController.handleWebhook).  `jsonError` is the SyntaxError
raised by JSON.parse inside getCachedData; `enqueueFailed` is a rejection of
webhookQueue.add. -/
inductive InnerErr
  | badRequest (msg : String)
  | unauthorized (msg : String)
  | forbidden (msg : String)
  | jsonError
  | enqueueFailed
deriving DecidableEq

deriving instance DecidableEq for Except

/-- HTTP-level outcome of a request, after Nest's exception mapping.
`acknowledged` is the bare `return;` taken when no handler matches (200 with
empty body). -/
inductive HandlerResult
  | success (msg : String)
  | acknowledged
  | badRequest (msg : String)
  | unauthorized (msg : String)
  | forbidden (msg : String)
  | notFound (msg : String)
  | internalError (msg : String)
deriving DecidableEq

/-- HTTP status code carried by each outcome. -/
def statusCode : HandlerResult → Nat
  | HandlerResult.success _ => 200
  | HandlerResult.acknowledged => 200
  | HandlerResult.badRequest _ => 400
  | HandlerResult.unauthorized _ => 401
  | HandlerResult.forbidden _ => 403
  | HandlerResult.notFound _ => 404
  | HandlerResult.internalError _ => 500

/-- ShopifyWebhooksController.handleError: only BadRequestException and
NotFoundException are rethrown unchanged; every other exception (including
UnauthorizedException, ForbiddenException, SyntaxError, queue failures) is
replaced by InternalServerErrorException.  No inner path produces a
NotFoundException, so that arm is not needed here. -/
def handleErrorMap : InnerErr → HandlerResult
  | InnerErr.badRequest m => HandlerResult.badRequest m
  | _ => HandlerResult.internalError ("An error occurred while processing the webhook")

/-- HMAC-SHA256 base64 digest of the raw body under the shared secret
(ShopifyWebhooksController.computeHmacSignature).  The crypto primitive is
the abstract parameter `hmacF`. -/
def computeHmacSignature (hmacF : String → String → String) (secret rawBody : String) : String :=
  hmacF secret rawBody

/-- ShopifyWebhooksController.validateWebhookSignature: the supplied
x-shopify-hmac-sha256 header must equal the computed digest (plain `!==`
string comparison in the source); returns whether validation passes. -/
def validateWebhookSignature (hmacF : String → String → String) (secret rawBody : String)
    (sigHeader : Option String) : Bool :=
  match sigHeader with
  | some s => s == computeHmacSignature hmacF secret rawBody
  | none => false

/-- Replace the character at position `i` (a single-byte corruption of a
header or body). -/
def flipChar (s : String) (i : Nat) (c : Char) : String :=
  String.mk (s.data.set i c)

/-- ShopifyWebhooksController.validateAuth: passes iff the x-shopify-token
header is truthy and strictly equal to the configured SHOPIFY_AUTH_TOKEN. -/
def validateAuthOk (tokenHeader : Option String) (expected : String) : Bool :=
  match tokenHeader with
  | none => false
  | some t => if t == "" then false else t == expected

/-- ShopifyWebhooksController.validateTimestampAndNonce.  The whole check
runs only when the nonce header is truthy.  Order, as in the source: the
used-nonce check first, then `currentTime - timestamp > 5 * 60 * 1000`
(one-directional: only stale-in-the-past timestamps fail; `Number` of an
absent or non-numeric header is NaN, whose comparisons are all false, so it
is modelled as `none`).  On success the nonce is added to the in-memory set
`usedNonces` — without any expiry. -/
def validateTimestampAndNonce (nonce : Option String) (ts : Option Int) (now : Int)
    (used : List String) : Except InnerErr (List String) :=
  match nonce with
  | none => Except.ok used
  | some n =>
    if used.contains n then
      Except.error (InnerErr.badRequest ("Nonce has already been used"))
    else if (match ts with | some t => decide (now - t > 300000) | none => false) then
      Except.error (InnerErr.badRequest ("Timestamp too old"))
    else
      Except.ok (n :: used)

/-- Header bundle of an inbound webhook request.  `timestampNum` is
`Number(headers['x-shopify-timestamp'])` when that is a number, `none` when
the header is absent or NaN. -/
structure WebhookHeaders where
  topic : Option String
  shopDomain : Option String
  webhookId : Option String
  hmacSig : Option String
  nonce : Option String
  timestampNum : Option Int
  token : Option String
deriving DecidableEq

/-- An inbound HTTP request as the controller sees it. -/
structure WebhookRequest where
  rawBody : String
  ip : String
  headers : WebhookHeaders
deriving DecidableEq

/-- Configuration surface of the controller, with the two external library
functions (crypto HMAC, DOMPurify) as parameters. -/
structure GatewayConfig where
  shopifyIps : List String
  authToken : String
  webhookSecret : String
  hmacF : String → String → String
  sanitize : String → String

/-- A job as placed on the Bull queue by
`webhookQueue.add('processWebhook', {...})` (queue name from
`@InjectQueue('webhook-queue')`). -/
structure WebhookJob where
  queueName : String
  jobName : String
  handlerTopic : String
  topic : String
  domain : String
  payload : String
  webhookId : String
deriving DecidableEq

/-- Mutable state shared by requests: the Redis store (dedup ledger), the
in-memory `usedNonces` set, the Bull queue contents, and a counter of
`breaker.fire` invocations.  The source constructs `this.breaker` (opossum)
in the constructor but contains no call to it, so no operation in this file
ever increments `breakerFires`. -/
structure GatewayState where
  redis : RedisStore
  usedNonces : List String
  queue : List WebhookJob
  breakerFires : Nat
deriving DecidableEq

/-- Normalise a header value: absent and empty string are both falsy. -/
def hdrPresent (o : Option String) : Option String :=
  match o with
  | some s => if s == "" then none else some s
  | none => none

/-- Names pushed onto `missingHeaders` by extractHeaders. -/
def missingHeaderNames (h : WebhookHeaders) : List String :=
  (if (hdrPresent h.topic).isNone then [("Topic")] else [])
    ++ (if (hdrPresent h.shopDomain).isNone then [("Domain")] else [])
    ++ (if (hdrPresent h.webhookId).isNone then [("WebhookId")] else [])

/-- ShopifyWebhooksController.extractHeaders: requires the topic,
shop-domain and webhook-id headers, else throws BadRequestException listing
every missing one.  This runs before the try block of handleWebhook. -/
def extractHeaders (h : WebhookHeaders) : Except String (String × String × String) :=
  match hdrPresent h.topic, hdrPresent h.shopDomain, hdrPresent h.webhookId with
  | some t, some d, some w => Except.ok (t, d, w)
  | _, _, _ =>
    Except.error ("Missing required HTTP headers: "
      ++ String.intercalate (", ") (missingHeaderNames h))

/-- ShopifyWebhooksController.getCachedData: redis.get, then JSON.parse of a
hit (SyntaxError propagates); on a miss the fetchData callback supplied at
the call site returns null, which is not cached, so the miss result is
`none`. -/
def getCachedData (store : RedisStore) (now : Int) (key : String) :
    Except InnerErr (Option JsonVal) :=
  match redisGet store now key with
  | some v =>
    match jsonParse v with
    | some j => Except.ok (some j)
    | none => Except.error InnerErr.jsonError
  | none => Except.ok none

/-- Non-error outcome of the controller's try block. -/
inductive InnerOutcome
  | alreadyProcessed
  | queued
  | noHandler
deriving DecidableEq

/-- Tail of handleWebhook after the dedup check: handler lookup by exact
topic match over `webhookHandlers`, enqueue of `processWebhook` onto the
`webhook-queue`, then `redis.set(cacheKey, 'processed', 'EX', 3600)`.
`enqueueOk` models whether `webhookQueue.add` succeeds or rejects. -/
def enqueueAndMark (handlers : List String) (topic domain payload webhookId : String)
    (now : Int) (enqueueOk : Bool) (st : GatewayState) :
    Except InnerErr InnerOutcome × GatewayState :=
  match handlers.filter (fun h => h == topic) with
  | [] => (Except.ok InnerOutcome.noHandler, st)
  | h :: _ =>
    if enqueueOk then
      let job : WebhookJob :=
        WebhookJob.mk ("webhook-queue") ("processWebhook") h topic domain payload webhookId
      let st2 : GatewayState := { st with queue := st.queue ++ [job] }
      (Except.ok InnerOutcome.queued,
        { st2 with redis := redisSet st2.redis webhookId ("processed") (now + 3600000) })
    else (Except.error InnerErr.enqueueFailed, st)

/-- Body of the try block of ShopifyWebhooksController.handleWebhook, in
source order: Joi schema validation (which cannot fail once extractHeaders
has succeeded — the three headers are present non-empty strings and the
sanitized payload is a string, satisfying `Joi.any().required()`), then
validateIp, validateAuth, validateWebhookSignature,
validateTimestampAndNonce, the Redis dedup lookup, handler matching,
enqueue, and the dedup mark. -/
def handleWebhookTry (cfg : GatewayConfig) (handlers : List String) (req : WebhookRequest)
    (topic domain webhookId : String) (now : Int) (enqueueOk : Bool) (st : GatewayState) :
    Except InnerErr InnerOutcome × GatewayState :=
  let payload := cfg.sanitize req.rawBody
  if cfg.shopifyIps.contains req.ip then
    if validateAuthOk req.headers.token cfg.authToken then
      if validateWebhookSignature cfg.hmacF cfg.webhookSecret req.rawBody req.headers.hmacSig then
        match validateTimestampAndNonce req.headers.nonce req.headers.timestampNum now
            st.usedNonces with
        | Except.error e => (Except.error e, st)
        | Except.ok nonces2 =>
          let st1 : GatewayState := { st with usedNonces := nonces2 }
          match getCachedData st1.redis now webhookId with
          | Except.error e => (Except.error e, st1)
          | Except.ok (some j) =>
            if jsonTruthy j then (Except.ok InnerOutcome.alreadyProcessed, st1)
            else enqueueAndMark handlers topic domain payload webhookId now enqueueOk st1
          | Except.ok none =>
            enqueueAndMark handlers topic domain payload webhookId now enqueueOk st1
      else (Except.error (InnerErr.badRequest ("Invalid HMAC signature")), st)
    else (Except.error (InnerErr.unauthorized ("Invalid authentication token")), st)
  else (Except.error (InnerErr.forbidden ("Unauthorized IP address")), st)

/-- ShopifyWebhooksController.handleWebhook end to end: extractHeaders
(outside the try block), the try body, and the catch block's handleError
mapping.  JavaScript keeps all mutations made before a throw, so the state
reached at the throw point is returned alongside the mapped error. -/
def handleWebhook (cfg : GatewayConfig) (handlers : List String) (req : WebhookRequest)
    (now : Int) (enqueueOk : Bool) (st : GatewayState) : HandlerResult × GatewayState :=
  match extractHeaders req.headers with
  | Except.error msg => (HandlerResult.badRequest msg, st)
  | Except.ok (topic, domain, webhookId) =>
    match handleWebhookTry cfg handlers req topic domain webhookId now enqueueOk st with
    | (Except.ok InnerOutcome.alreadyProcessed, st2) =>
      (HandlerResult.success ("Webhook already processed"), st2)
    | (Except.ok InnerOutcome.queued, st2) =>
      (HandlerResult.success ("Webhook added to processing queue"), st2)
    | (Except.ok InnerOutcome.noHandler, st2) => (HandlerResult.acknowledged, st2)
    | (Except.error e, st2) => (handleErrorMap e, st2)

/-- The topics bound by registerWebhookHandlers in the controller
constructor. -/
def controllerHandlers : List String := [("orders/create"), ("products/update")]

/-- The (queue, job name) pairs for which a processor is registered anywhere
in the repository: QueueProcessor (`@Processor('my-queue')` with
`@Process('processString')` and `@Process('processNumber')`) and
ShopifyProcessor (`@Processor('shopify')` with `@Process('syncShopData')`).
No processor exists for the `webhook-queue` / `processWebhook` jobs the
controller enqueues. -/
def registeredProcessors : List (String × String) :=
  [(("my-queue"), ("processString")), (("my-queue"), ("processNumber")),
    (("shopify"), ("syncShopData"))]

/-- Options passed to the opossum CircuitBreaker in the controller
constructor (configuration defaults CB_TIMEOUT 5000, CB_ERROR_THRESHOLD 50,
CB_RESET_TIMEOUT 30000). -/
structure BreakerOptions where
  timeout : Nat
  errorThresholdPercentage : Nat
  resetTimeout : Nat
deriving DecidableEq

def breakerOptions : BreakerOptions := BreakerOptions.mk 5000 50 30000

/-!
Interleaving model of the dedup-critical section.  For a valid, nonce-free
request the shared-store operations of handleWebhook are, in order:
redis.get (inside getCachedData, line 288), webhookQueue.add (line 308) and
redis.set (line 317).  Each is individually atomic against the shared
store, but nothing makes the get/set pair a test-and-set.  A request is a
program counter over those three operations; expiry is irrelevant within
the window so the store is just the list of marked ids.
-/

/-- One atomic step of a single request at program counter `pc`:
0 = redis.get (short-circuits to 4 when the id is already marked),
1 = webhookQueue.add, 2 = redis.set, 3 = done, 4 = stopped at the dedup
check. -/
def reqStep (key : String) (marked : List String) (jobs : Nat) (pc : Nat) :
    List String × Nat × Nat :=
  match pc with
  | 0 => if marked.contains key then (marked, jobs, 4) else (marked, jobs, 1)
  | 1 => (marked, jobs + 1, 2)
  | 2 => (key :: marked, jobs, 3)
  | _ => (marked, jobs, pc)

/-- Shared state of two concurrent deliveries of the same webhookId. -/
structure ConcState where
  marked : List String
  jobs : Nat
  pc1 : Nat
  pc2 : Nat
deriving DecidableEq

/-- Run one atomic step of request 1 (`true`) or request 2 (`false`). -/
def concStep (key : String) (cs : ConcState) (first : Bool) : ConcState :=
  if first then
    match reqStep key cs.marked cs.jobs cs.pc1 with
    | (m, j, p) => ConcState.mk m j p cs.pc2
  else
    match reqStep key cs.marked cs.jobs cs.pc2 with
    | (m, j, p) => ConcState.mk m j cs.pc1 p

/-- Execute a schedule (interleaving) of the two requests' atomic steps. -/
def runSched (key : String) : List Bool → ConcState → ConcState
  | [], cs => cs
  | b :: bs, cs => runSched key bs (concStep key cs b)

/-- Modelled from the spec: DedupStore.tryAccept, the atomic test-and-set
the spec requires ("Must be an atomic test-and-set against a shared store
(not a read followed by a write)").  The check and the mark happen in one
atomic step; this definition does not appear in the source, which performs
the get and the set as the two separate steps of `reqStep`. -/
def tryAcceptStep (key : String) (marked : List String) : List String × Bool :=
  if marked.contains key then (marked, false) else (key :: marked, true)

/-- One atomic step of a request under the spec's atomic tryAccept:
0 = tryAccept (short-circuits to 3 on duplicate), 1 = enqueue, 2 = done. -/
def reqStepAtomic (key : String) (marked : List String) (jobs : Nat) (pc : Nat) :
    List String × Nat × Nat :=
  match pc with
  | 0 =>
    match tryAcceptStep key marked with
    | (m, true) => (m, jobs, 1)
    | (m, false) => (m, jobs, 3)
  | 1 => (marked, jobs + 1, 2)
  | _ => (marked, jobs, pc)

def concStepAtomic (key : String) (cs : ConcState) (first : Bool) : ConcState :=
  if first then
    match reqStepAtomic key cs.marked cs.jobs cs.pc1 with
    | (m, j, p) => ConcState.mk m j p cs.pc2
  else
    match reqStepAtomic key cs.marked cs.jobs cs.pc2 with
    | (m, j, p) => ConcState.mk m j cs.pc1 p

def runSchedAtomic (key : String) : List Bool → ConcState → ConcState
  | [], cs => cs
  | b :: bs, cs => runSchedAtomic key bs (concStepAtomic key cs b)

/-- All interleavings of the two atomic-model requests (two steps each). -/
def twoReqSchedules : List (List Bool) :=
  [[true, true, false, false], [true, false, true, false], [true, false, false, true],
    [false, true, true, false], [false, true, false, true], [false, false, true, true]]

/-!
Bull retry model for the webhook processing queue.  QueueModule registers
`my-queue` with defaultJobOptions attempts = QUEUE_RETRY_ATTEMPTS (default
3) and exponential backoff with delay = QUEUE_RETRY_BACKOFF_DELAY (default
1000): Bull waits delay * 2 ^ (attemptsMade - 1) ms after the n-th failed
attempt.  QueueProcessor's job handlers catch an error, run handleError and
then rethrow: handleError triggers an alert when the error is a
PermanentErrorException (once per such attempt) and just rethrows for
TemporaryErrorException and unknown errors; the rethrow always reaches Bull,
which retries until the attempts are exhausted.  No removeOnFail option is
set, so an exhausted job stays in the failed set (dead-letter).
-/

/-- Outcome of one handler attempt. -/
inductive JobOutcome
  | ok
  | tempErr
  | permErr
  | otherErr
deriving DecidableEq

/-- Alerts emitted by QueueProcessor.handleError for one failed attempt:
one for PermanentErrorException, none otherwise. -/
def attemptAlert : JobOutcome → Nat
  | JobOutcome.permErr => 1
  | _ => 0

inductive JobState
  | completed
  | failedTerminal
deriving DecidableEq

structure JobRun where
  attemptsMade : Nat
  delays : List Nat
  finalState : JobState
  retainedOnFail : Bool
  alerts : Nat
deriving DecidableEq

/-- Bull exponential backoff: delay after the n-th failed attempt. -/
def backoffDelay (baseDelay attemptsMade : Nat) : Nat :=
  baseDelay * 2 ^ (attemptsMade - 1)

/-- Run a job whose attempt outcomes are given by `outcome` (1-based),
with `remaining` attempts left, current attempt number `attemptNum`. -/
def runJobAux (outcome : Nat → JobOutcome) (attemptNum : Nat) : Nat → JobRun
  | 0 => JobRun.mk 0 [] JobState.failedTerminal true 0
  | Nat.succ r =>
    match outcome attemptNum with
    | JobOutcome.ok => JobRun.mk 1 [] JobState.completed true 0
    | o =>
      if r = 0 then JobRun.mk 1 [] JobState.failedTerminal true (attemptAlert o)
      else
        match runJobAux outcome (attemptNum + 1) r with
        | rest =>
          JobRun.mk (rest.attemptsMade + 1)
            (backoffDelay 1000 attemptNum :: rest.delays)
            rest.finalState rest.retainedOnFail (attemptAlert o + rest.alerts)

/-- A job processed under the registered default options (attempts 3,
exponential backoff with base 1000 ms). -/
def runJob (outcome : Nat → JobOutcome) : JobRun :=
  runJobAux outcome 1 3

/-!
ShopifyWebhooksService.registerWebhooks.  Each topic's registration call is
wrapped in `retry` from @lifeomic/attempt with maxAttempts 3, delay 1000,
factor 2 (sleeps of 1000 then 2000 ms between attempts); when the retries
are exhausted the private registerWebhook rethrows
WebhookRegistrationError(topic, shop, message), which propagates out of the
sequential `for` loop, so later topics are never attempted, while the
external registrations already performed for earlier topics stay in place.
The external API outcome is the oracle `oracle topic attemptNum`.
-/

structure RetryResult where
  succeeded : Bool
  attemptsMade : Nat
  delays : List Nat
deriving DecidableEq

/-- @lifeomic/attempt retry loop: try `oracle attemptNum`; on failure, if
attempts remain, sleep `curDelay` (doubling each time) and retry. -/
def runRetryAux (oracle : Nat → Bool) (attemptNum curDelay : Nat) : Nat → RetryResult
  | 0 => RetryResult.mk false 0 []
  | Nat.succ r =>
    if oracle attemptNum then RetryResult.mk true 1 []
    else if r = 0 then RetryResult.mk false 1 []
    else
      match runRetryAux oracle (attemptNum + 1) (curDelay * 2) r with
      | rest => RetryResult.mk rest.succeeded (rest.attemptsMade + 1) (curDelay :: rest.delays)

/-- The retry policy used for one topic: maxAttempts 3, delay 1000, factor 2. -/
def runRetry (oracle : Nat → Bool) : RetryResult :=
  runRetryAux oracle 1 1000 3

/-- WebhookRegistrationError(topic, shop, message); the message, built from
the final attempt's error, is abstracted away. -/
structure WebhookRegErr where
  topic : String
  shop : String
deriving DecidableEq

/-- Trace of one registerWebhooks(session) run. -/
structure RegRun where
  registered : List String
  attempted : List (String × Nat)
  failure : Option WebhookRegErr
deriving DecidableEq

/-- ShopifyWebhooksService.registerWebhooks: iterate the configured topics
sequentially; stop at the first topic whose retries are exhausted. -/
def registerWebhooks (oracle : String → Nat → Bool) (shop : String) : List String → RegRun
  | [] => RegRun.mk [] [] none
  | t :: ts =>
    match runRetry (oracle t) with
    | r =>
      if r.succeeded then
        match registerWebhooks oracle shop ts with
        | rest =>
          RegRun.mk (t :: rest.registered) ((t, r.attemptsMade) :: rest.attempted) rest.failure
      else RegRun.mk [] [(t, r.attemptsMade)] (some (WebhookRegErr.mk t shop))

/-- Whether an oracle succeeds within the three allowed attempts. -/
def succeeds3 (o : Nat → Bool) : Bool :=
  o 1 || o 2 || o 3

/-!
Concrete instances used by the closed theorems.  `hmacModel` is a concrete
stand-in instantiation of the abstract keyed digest parameter.
-/

def hmacModel : String → String → String :=
  fun secret body => secret ++ (":") ++ body

def cfgEx : GatewayConfig :=
  GatewayConfig.mk [("23.227.38.64")] ("tok") ("sec") hmacModel (fun s => s)

def st0 : GatewayState := GatewayState.mk [] [] [] 0

def reqEx : WebhookRequest :=
  WebhookRequest.mk ("hello")
    ("23.227.38.64")
    (WebhookHeaders.mk (some ("orders/create")) (some ("shop.example"))
      (some ("abc-1")) (some (hmacModel ("sec") ("hello"))) none none (some ("tok")))

/-- First delivery of reqEx against an empty gateway state. -/
def run1 : HandlerResult × GatewayState :=
  handleWebhook cfgEx controllerHandlers reqEx 1000 true st0

/-- Identical sequential redelivery 1 second later, well inside the 1-hour
dedup TTL. -/
def run2 : HandlerResult × GatewayState :=
  handleWebhook cfgEx controllerHandlers reqEx 2000 true run1.2

/-- Claim C1: the source performs the dedup check as a plain redis.get
followed (after the enqueue) by a redis.set — not an atomic test-and-set —
so under the interleaving get1, get2, add1, set1, add2, set2 of two
concurrent deliveries of the same webhookId both requests pass the dedup
check, both run to completion (pc = 3) and two jobs are enqueued, violating
the claimed exactly-one-job guarantee. -/
theorem concurrent_redelivery_double_enqueue :
    (runSched ("W") [true, false, true, true, false, false] (ConcState.mk [] 0 0 0)).jobs = 2
    ∧ (runSched ("W") [true, false, true, true, false, false] (ConcState.mk [] 0 0 0)).pc1 = 3
    ∧ (runSched ("W") [true, false, true, true, false, false] (ConcState.mk [] 0 0 0)).pc2 = 3 := by
  decide

/-- Under the spec's atomic tryAccept, by contrast, every interleaving of
the two requests enqueues exactly one job.  (Supporting observation for the
C1 analysis; not itself a claim theorem.) -/
theorem tryAccept_atomic_single_enqueue :
    ∀ s ∈ twoReqSchedules, (runSchedAtomic ("W") s (ConcState.mk [] 0 0 0)).jobs = 1 := by
  decide

/-- Claim C3: a sequential redelivery of an already-accepted delivery does
not return 200 "already processed".  The first delivery succeeds and
enqueues one job; the redelivery finds the dedup marker, but
getCachedData then runs JSON.parse on the stored sentinel string
`processed`, which is not valid JSON — the SyntaxError is caught by the
catch block and handleError rewraps it as InternalServerErrorException, so
the redelivery answers HTTP 500 (and, as claimed, no second job is
enqueued). -/
theorem redelivery_internal_error :
    run1.1 = HandlerResult.success ("Webhook added to processing queue")
    ∧ run1.2.queue.length = 1
    ∧ run2.1 = HandlerResult.internalError ("An error occurred while processing the webhook")
    ∧ statusCode run2.1 = 500
    ∧ run2.2.queue.length = 1 := by
  exact ⟨rfl, rfl, rfl, rfl, rfl⟩

/-- Claim C4: the controller constructs the opossum CircuitBreaker (with
timeout 5000, errorThresholdPercentage 50, resetTimeout 30000) but never
calls breaker.fire, and no processor anywhere in the repository is
registered for the `processWebhook` jobs placed on `webhook-queue`: a fully
successful delivery enqueues its job on that queue and performs zero
breaker invocations, so no dequeued job's handler is ever invoked through
the DispatchBreaker. -/
theorem breaker_never_invoked :
    run1.1 = HandlerResult.success ("Webhook added to processing queue")
    ∧ run1.2.queue.map (fun j => (j.queueName, j.jobName))
        = [(("webhook-queue"), ("processWebhook"))]
    ∧ run1.2.breakerFires = 0
    ∧ (("webhook-queue"), ("processWebhook")) ∉ registeredProcessors
    ∧ breakerOptions = BreakerOptions.mk 5000 50 30000 := by
  exact ⟨rfl, rfl, rfl, by decide, rfl⟩

/-- A genuine single-character corruption produces a different string. -/
theorem flipChar_ne (s : String) (i : Nat) (c : Char) (hi : i < s.data.length)
    (hc : s.data.get ⟨i, hi⟩ ≠ c) : flipChar s i c ≠ s := by
  intro h
  apply hc
  have hdata : (s.data.set i c) = s.data := congrArg String.data h
  have := congrArg (fun l => l.get? i) hdata
  simp only [List.get?_set_eq] at this
  rw [List.get?_eq_get hi] at this
  simp at this
  exact this.symm

/-- Claim C2: verification of a body against its own HMAC under the shared
secret succeeds; a signature corrupted at any single position fails
verification (the comparison is string equality against the recomputed
digest); and a body corrupted at any single position fails verification
whenever the keyed digest of the corrupted body differs from that of the
original — the standard idealization of HMAC-SHA256, embedded here as the
abstract digest parameter `hmacF`. -/
theorem hmac_verification_sound (hmacF : String → String → String) (secret body : String) :
    validateWebhookSignature hmacF secret body
        (some (computeHmacSignature hmacF secret body)) = true
    ∧ (∀ i c, flipChar (computeHmacSignature hmacF secret body) i c
          ≠ computeHmacSignature hmacF secret body →
        validateWebhookSignature hmacF secret body
          (some (flipChar (computeHmacSignature hmacF secret body) i c)) = false)
    ∧ (∀ i c, computeHmacSignature hmacF secret (flipChar body i c)
          ≠ computeHmacSignature hmacF secret body →
        validateWebhookSignature hmacF secret (flipChar body i c)
          (some (computeHmacSignature hmacF secret body)) = false) := by
  refine ⟨?_, ?_, ?_⟩
  · simp [validateWebhookSignature]
  · intro i c hne
    simp only [validateWebhookSignature, beq_eq_false_iff_ne, ne_eq]
    exact hne
  · intro i c hne
    simp only [validateWebhookSignature, beq_eq_false_iff_ne, ne_eq]
    exact fun h => hne h.symm

theorem hmac_verification_sound_witness :
    validateWebhookSignature hmacModel ("sec") ("ab")
        (some (computeHmacSignature hmacModel ("sec") ("ab"))) = true
    ∧ validateWebhookSignature hmacModel ("sec") ("ab")
        (some (flipChar (computeHmacSignature hmacModel ("sec") ("ab")) 0 'x')) = false
    ∧ validateWebhookSignature hmacModel ("sec") (flipChar ("ab") 0 'x')
        (some (computeHmacSignature hmacModel ("sec") ("ab"))) = false := by
  refine ⟨(hmac_verification_sound hmacModel ("sec") ("ab")).1, ?_, ?_⟩
  · exact (hmac_verification_sound hmacModel ("sec") ("ab")).2.1 0 'x' (by decide)
  · exact (hmac_verification_sound hmacModel ("sec") ("ab")).2.2 0 'x' (by decide)

/-- Claim C7 counterexample: the nonce `n1` is accepted at time 0 and
recorded; resubmitted at time 900000 ms — a full 15 minutes later, far past
the claimed 5-minute record TTL, with a fresh timestamp — it is still
rejected, because the in-memory `usedNonces` set has no expiry at all. -/
theorem nonce_expiry_counterexample :
    validateTimestampAndNonce (some ("n1")) (some 0) 0 [] = Except.ok [("n1")]
    ∧ validateTimestampAndNonce (some ("n1")) (some 900000) 900000 [("n1")]
        = Except.error (InnerErr.badRequest ("Nonce has already been used")) := by
  decide

/-- Claim C7 (amended): an accepted nonce is recorded in the in-memory
`usedNonces` set with no TTL, so a resubmission of a recorded nonce is
rejected at every later time — the nonce is accepted at most once ever
(which implies at most once while unexpired), and is never accepted again
after the claimed window has passed. -/
theorem nonce_permanent_record (n : String) (ts : Option Int) (now : Int)
    (used : List String) :
    (used.contains n = true →
      validateTimestampAndNonce (some n) ts now used
        = Except.error (InnerErr.badRequest ("Nonce has already been used")))
    ∧ (used.contains n = false →
        (match ts with | some t => decide (now - t > 300000) | none => false) = false →
        validateTimestampAndNonce (some n) ts now used = Except.ok (n :: used)) := by
  constructor
  · intro h
    have h2 : n ∈ used := by simpa using h
    simp [validateTimestampAndNonce, h2]
  · intro h hts
    have h2 : n ∉ used := by simpa using h
    simp [validateTimestampAndNonce, h2, hts]

theorem nonce_permanent_record_witness :
    validateTimestampAndNonce (some ("n1")) (some 900000) 900000 [("n1")]
        = Except.error (InnerErr.badRequest ("Nonce has already been used"))
    ∧ validateTimestampAndNonce (some ("n2")) (some 0) 0 []
        = Except.ok [("n2")] :=
  ⟨(nonce_permanent_record ("n1") (some 900000) 900000 [("n1")]).1 (by decide),
   (nonce_permanent_record ("n2") (some 0) 0 []).2 (by decide) (by decide)⟩

/-- Claim C8 counterexample: with a fresh nonce and a timestamp 10 minutes
in the FUTURE — a deviation from current time of 600000 ms, double the
5-minute window — the request is accepted, because the source checks only
`currentTime - timestamp > 300000` (the stale direction). -/
theorem future_timestamp_counterexample :
    validateTimestampAndNonce (some ("n")) (some 600000) 0 [] = Except.ok [("n")]
    ∧ (600000 : Int) - 0 > 300000 := by
  decide

/-- Claim C8 (amended): when the nonce and timestamp headers are present
(and the nonce is fresh — the used-nonce check runs first), the request is
rejected as a replay exactly when the timestamp is more than 5 minutes
OLDER than the current time; deviations in the future direction are never
rejected. -/
theorem timestamp_one_sided (n : String) (t now : Int) (used : List String)
    (h : used.contains n = false) :
    (now - t > 300000 →
      validateTimestampAndNonce (some n) (some t) now used
        = Except.error (InnerErr.badRequest ("Timestamp too old")))
    ∧ (now - t ≤ 300000 →
      validateTimestampAndNonce (some n) (some t) now used = Except.ok (n :: used)) := by
  have h2 : n ∉ used := by simpa using h
  constructor
  · intro hgt
    simp [validateTimestampAndNonce, h2, hgt]
  · intro hle
    simp [validateTimestampAndNonce, h2, not_lt.mpr hle]

theorem timestamp_one_sided_witness :
    validateTimestampAndNonce (some ("n")) (some 0) 400000 []
        = Except.error (InnerErr.badRequest ("Timestamp too old"))
    ∧ validateTimestampAndNonce (some ("n")) (some 600000) 0 [] = Except.ok [("n")] :=
  ⟨(timestamp_one_sided ("n") 0 400000 [] (by decide)).1 (by decide),
   (timestamp_one_sided ("n") 600000 0 [] (by decide)).2 (by decide)⟩

/-- Claim C5 counterexample: a job whose handler fails every attempt with a
PermanentErrorException triggers QueueProcessor's alert on every one of the
3 attempts (3 notifications, not exactly one), while one failing with any
other error triggers none; and with 3 attempts there are only two backoff
delays (1000 ms and 2000 ms), not three. -/
theorem job_notifications_counterexample :
    (runJob (fun _ => JobOutcome.permErr)).alerts = 3
    ∧ ¬((runJob (fun _ => JobOutcome.permErr)).alerts = 1)
    ∧ (runJob (fun _ => JobOutcome.otherErr)).alerts = 0
    ∧ ¬((runJob (fun _ => JobOutcome.otherErr)).alerts = 1)
    ∧ (runJob (fun _ => JobOutcome.permErr)).delays = [1000, 2000] := by
  decide

/-- Claim C5 (amended): a job whose handler fails on every attempt is
attempted exactly 3 times (the registered default), with backoff delays
1000 * 2 ^ (n-1) ms after the n-th failure — 1 s and 2 s between the three
attempts — after which the job is failed-terminal and retained in the
failed set (no removeOnFail is configured); the alert fires once per
attempt whose error is a PermanentErrorException (so 3 for an
always-permanent failure and 0 for temporary or unknown errors), never
exactly once overall. -/
theorem job_retry_behavior (outcome : Nat → JobOutcome)
    (h : ∀ n, outcome n ≠ JobOutcome.ok) :
    (runJob outcome).attemptsMade = 3
    ∧ (runJob outcome).delays = [1000, 2000]
    ∧ (runJob outcome).finalState = JobState.failedTerminal
    ∧ (runJob outcome).retainedOnFail = true
    ∧ (runJob outcome).alerts
        = attemptAlert (outcome 1) + (attemptAlert (outcome 2) + attemptAlert (outcome 3)) := by
  have h1 := h 1
  have h2 := h 2
  have h3 := h 3
  rcases ho1 : outcome 1 <;> rcases ho2 : outcome 2 <;> rcases ho3 : outcome 3 <;>
    simp_all [runJob, runJobAux, backoffDelay, attemptAlert]

theorem job_retry_behavior_witness :
    (runJob (fun _ => JobOutcome.permErr)).attemptsMade = 3
    ∧ (runJob (fun _ => JobOutcome.permErr)).delays = [1000, 2000]
    ∧ (runJob (fun _ => JobOutcome.permErr)).finalState = JobState.failedTerminal
    ∧ (runJob (fun _ => JobOutcome.permErr)).retainedOnFail = true
    ∧ (runJob (fun _ => JobOutcome.permErr)).alerts
        = attemptAlert ((fun _ => JobOutcome.permErr) 1)
          + (attemptAlert ((fun _ => JobOutcome.permErr) 2)
            + attemptAlert ((fun _ => JobOutcome.permErr) 3)) :=
  job_retry_behavior (fun _ => JobOutcome.permErr) (fun _ h => JobOutcome.noConfusion h)

/-- A topic whose registration succeeds within the three allowed attempts
makes the @lifeomic/attempt wrapper succeed. -/
theorem runRetry_of_succeeds3 (o : Nat → Bool) (h : succeeds3 o = true) :
    (runRetry o).succeeded = true := by
  rcases h1 : o 1 <;> rcases h2 : o 2 <;> rcases h3 : o 3 <;>
    simp_all [succeeds3, runRetry, runRetryAux]

/-- A topic whose registration always fails exhausts exactly 3 attempts
with sleeps of 1000 and 2000 ms and fails. -/
theorem runRetry_of_allFail (o : Nat → Bool) (h : ∀ n, o n = false) :
    runRetry o = RetryResult.mk false 3 [1000, 2000] := by
  simp [runRetry, runRetryAux, h 1, h 2, h 3]

/-- Claim C6: registerWebhooks walks the configured topics in order, giving
each topic up to 3 attempts (base delay 1000 ms, factor 2); when it reaches
a topic `t` whose registration always fails, `t` consumes exactly 3
attempts and the run ends with WebhookRegistrationError carrying `t` and
the shop; the topics before `t` (each succeeding within its retries) remain
registered, and the topics after `t` are never attempted — the attempt log
stops at `t`. -/
theorem register_webhooks_abort_on_failure (oracle : String → Nat → Bool)
    (shop t : String) (pre post : List String)
    (hpre : ∀ p ∈ pre, succeeds3 (oracle p) = true)
    (ht : ∀ n, oracle t n = false) :
    (registerWebhooks oracle shop (pre ++ t :: post)).failure = some (WebhookRegErr.mk t shop)
    ∧ (registerWebhooks oracle shop (pre ++ t :: post)).registered = pre
    ∧ (registerWebhooks oracle shop (pre ++ t :: post)).attempted
        = pre.map (fun p => (p, (runRetry (oracle p)).attemptsMade)) ++ [(t, 3)]
    ∧ runRetry (oracle t) = RetryResult.mk false 3 [1000, 2000] := by
  induction pre with
  | nil =>
    have hrt := runRetry_of_allFail (oracle t) ht
    refine ⟨?_, ?_, ?_, hrt⟩ <;>
      simp [registerWebhooks, hrt]
  | cons p ps ih =>
    have hp : succeeds3 (oracle p) = true := hpre p (List.mem_cons_self p ps)
    have hps : ∀ q ∈ ps, succeeds3 (oracle q) = true :=
      fun q hq => hpre q (List.mem_cons_of_mem p hq)
    have hsucc := runRetry_of_succeeds3 (oracle p) hp
    obtain ⟨ih1, ih2, ih3, ih4⟩ := ih hps
    refine ⟨?_, ?_, ?_, ih4⟩ <;>
      simp [registerWebhooks, hsucc, ih1, ih2, ih3]

/-- Concrete oracle: "orders/create" registers on the first attempt, every
other topic always fails. -/
def oracleEx : String → Nat → Bool :=
  fun topic _ => topic == "orders/create"

theorem register_webhooks_abort_on_failure_witness :
    (registerWebhooks oracleEx ("shop.example")
        ([("orders/create")] ++ ("products/update") :: [])).failure
      = some (WebhookRegErr.mk ("products/update") ("shop.example"))
    ∧ (registerWebhooks oracleEx ("shop.example")
        ([("orders/create")] ++ ("products/update") :: [])).registered = [("orders/create")]
    ∧ (registerWebhooks oracleEx ("shop.example")
        ([("orders/create")] ++ ("products/update") :: [])).attempted
        = [("orders/create")].map (fun p => (p, (runRetry (oracleEx p)).attemptsMade))
          ++ [(("products/update"), 3)]
    ∧ runRetry (oracleEx ("products/update")) = RetryResult.mk false 3 [1000, 2000] :=
  register_webhooks_abort_on_failure oracleEx ("shop.example") ("products/update")
    [("orders/create")] [] (by decide) (fun n => rfl)


/-- How the enqueue-and-mark tail of the pipeline touches the state: the
no-handler outcome and an enqueue failure leave the state untouched; the
queued outcome appends exactly one job for the request's webhookId and only
then writes the `processed` dedup marker with a one-hour expiry. -/
theorem enqueueAndMark_state (handlers : List String)
    (topic domain payload webhookId : String) (now : Int) (enqueueOk : Bool)
    (st : GatewayState) :
    (∀ e st2, enqueueAndMark handlers topic domain payload webhookId now enqueueOk st
        = (Except.error e, st2) → st2 = st)
    ∧ (∀ o st2, enqueueAndMark handlers topic domain payload webhookId now enqueueOk st
        = (Except.ok o, st2) → o ≠ InnerOutcome.queued → st2 = st)
    ∧ (∀ st2, enqueueAndMark handlers topic domain payload webhookId now enqueueOk st
        = (Except.ok InnerOutcome.queued, st2) →
        ∃ job : WebhookJob, job.webhookId = webhookId
          ∧ st2.queue = st.queue ++ [job]
          ∧ st2.redis = redisSet st.redis webhookId ("processed") (now + 3600000)) := by
  unfold enqueueAndMark
  rcases hf : handlers.filter (fun h => h == topic) with _ | ⟨h0, hs⟩
  · refine ⟨?_, ?_, ?_⟩
    · intro e st2 hE
      simp at hE
    · intro o st2 hE ho
      simp at hE
      exact hE.2.symm
    · intro st2 hE
      simp at hE
  · by_cases he : enqueueOk
    · refine ⟨?_, ?_, ?_⟩
      · intro e st2 hE
        simp [he] at hE
      · intro o st2 hE ho
        simp [he] at hE
        exact absurd hE.1.symm ho
      · intro st2 hE
        simp [he] at hE
        refine ⟨WebhookJob.mk ("webhook-queue") ("processWebhook") h0 topic domain payload
          webhookId, rfl, ?_, ?_⟩ <;> rw [← hE]
    · refine ⟨?_, ?_, ?_⟩
      · intro e st2 hE
        simp [he] at hE
        exact hE.2.symm
      · intro o st2 hE ho
        simp [he] at hE
      · intro st2 hE
        simp [he] at hE

/-- How the try block touches the shared dedup store and queue: every error
and the already-processed / no-handler outcomes leave both untouched (only
`usedNonces` may grow), and the queued outcome appends exactly one job for
the request's webhookId and only then writes the `processed` dedup marker
with a one-hour expiry. -/
theorem handleWebhookTry_state (cfg : GatewayConfig) (handlers : List String)
    (req : WebhookRequest) (topic domain webhookId : String) (now : Int)
    (enqueueOk : Bool) (st : GatewayState) :
    (∀ e st2, handleWebhookTry cfg handlers req topic domain webhookId now enqueueOk st
        = (Except.error e, st2) → st2.redis = st.redis ∧ st2.queue = st.queue)
    ∧ (∀ o st2, handleWebhookTry cfg handlers req topic domain webhookId now enqueueOk st
        = (Except.ok o, st2) → o ≠ InnerOutcome.queued →
        st2.redis = st.redis ∧ st2.queue = st.queue)
    ∧ (∀ st2, handleWebhookTry cfg handlers req topic domain webhookId now enqueueOk st
        = (Except.ok InnerOutcome.queued, st2) →
        ∃ job : WebhookJob, job.webhookId = webhookId
          ∧ st2.queue = st.queue ++ [job]
          ∧ st2.redis = redisSet st.redis webhookId ("processed") (now + 3600000)) := by
  unfold handleWebhookTry
  by_cases hip : cfg.shopifyIps.contains req.ip = true
  · by_cases hau : validateAuthOk req.headers.token cfg.authToken = true
    · by_cases hsig : validateWebhookSignature cfg.hmacF cfg.webhookSecret req.rawBody
          req.headers.hmacSig = true
      · rcases hV : validateTimestampAndNonce req.headers.nonce req.headers.timestampNum now
            st.usedNonces with eV | nonces2
        · simp only [hip, hau, hsig, hV, if_true]
          refine ⟨fun e st2 hE => ?_, fun o st2 hE ho => ?_, fun st2 hE => ?_⟩ <;> simp_all
        · rcases hG : getCachedData st.redis now webhookId with eG | jq
          · simp only [hip, hau, hsig, hV, hG, if_true]
            refine ⟨fun e st2 hE => ?_, fun o st2 hE ho => ?_, fun st2 hE => ?_⟩ <;>
              simp_all <;> (rw [← hE.2]; exact ⟨rfl, rfl⟩)
          · rcases jq with _ | j
            · simp only [hip, hau, hsig, hV, hG, if_true]
              obtain ⟨hA, hB, hC⟩ := enqueueAndMark_state handlers topic domain
                (cfg.sanitize req.rawBody) webhookId now enqueueOk
                (GatewayState.mk st.redis nonces2 st.queue st.breakerFires)
              refine ⟨fun e st2 hE => ?_, fun o st2 hE ho => ?_, fun st2 hE => ?_⟩
              · rw [hA e st2 hE]
                exact ⟨rfl, rfl⟩
              · rw [hB o st2 hE ho]
                exact ⟨rfl, rfl⟩
              · exact hC st2 hE
            · by_cases hj : jsonTruthy j = true
              · simp only [hip, hau, hsig, hV, hG, hj, if_true]
                refine ⟨fun e st2 hE => ?_, fun o st2 hE ho => ?_, fun st2 hE => ?_⟩ <;>
                  simp_all <;> (rw [← hE.2]; exact ⟨rfl, rfl⟩)
              · simp only [hip, hau, hsig, hV, hG, hj, if_true, if_false,
                  Bool.not_eq_true]
                obtain ⟨hA, hB, hC⟩ := enqueueAndMark_state handlers topic domain
                  (cfg.sanitize req.rawBody) webhookId now enqueueOk
                  (GatewayState.mk st.redis nonces2 st.queue st.breakerFires)
                refine ⟨fun e st2 hE => ?_, fun o st2 hE ho => ?_, fun st2 hE => ?_⟩
                · rw [hA e st2 hE]
                  exact ⟨rfl, rfl⟩
                · rw [hB o st2 hE ho]
                  exact ⟨rfl, rfl⟩
                · exact hC st2 hE
      · simp only [hsig, if_false, Bool.not_eq_true] at *
        simp [hip, hau, hsig]
        refine ⟨fun e st2 hE => ?_, fun o st2 hE ho => ?_, fun st2 hE => ?_⟩ <;> simp_all
    · simp [hip, hau]
      refine ⟨fun e st2 hE => ?_, fun o st2 hE ho => ?_, fun st2 hE => ?_⟩ <;> simp_all
  · simp [hip]
    refine ⟨fun e st2 hE => ?_, fun o st2 hE ho => ?_, fun st2 hE => ?_⟩ <;> simp_all

/-- Claim C9 (amended): a request whose x-shopify-token header is absent or
wrong is rejected before the dedup store is consulted or modified — the
whole gateway state (dedup ledger, nonce set, queue) is returned unchanged,
no job is enqueued and no handler is looked up — but validateAuth's
UnauthorizedException is swallowed by the controller's catch-all
handleError, which rewraps everything except BadRequest and NotFound as
InternalServerErrorException, so the HTTP response is 500, not 401. -/
theorem bad_token_rejected_before_dedup (cfg : GatewayConfig) (handlers : List String)
    (req : WebhookRequest) (topic domain webhookId : String) (now : Int)
    (enqueueOk : Bool) (st : GatewayState)
    (hh : extractHeaders req.headers = Except.ok (topic, domain, webhookId))
    (hip : cfg.shopifyIps.contains req.ip = true)
    (htok : validateAuthOk req.headers.token cfg.authToken = false) :
    handleWebhook cfg handlers req now enqueueOk st
      = (HandlerResult.internalError ("An error occurred while processing the webhook"), st) := by
  have hip2 : req.ip ∈ cfg.shopifyIps := by simpa using hip
  unfold handleWebhook
  simp only [hh]
  unfold handleWebhookTry
  simp [hip2, htok, handleErrorMap]

/-- A valid request except for a wrong x-shopify-token header. -/
def reqBadTok : WebhookRequest :=
  WebhookRequest.mk ("hello")
    ("23.227.38.64")
    (WebhookHeaders.mk (some ("orders/create")) (some ("shop.example"))
      (some ("abc-1")) (some (hmacModel ("sec") ("hello"))) none none (some ("wrong")))

/-- Claim C9 counterexample: a delivery from an allowlisted IP with a valid
signature but a wrong x-shopify-token is answered with HTTP 500, not the
claimed 401 Unauthorized. -/
theorem bad_token_counterexample :
    (handleWebhook cfgEx controllerHandlers reqBadTok 1000 true st0).1
        = HandlerResult.internalError ("An error occurred while processing the webhook")
    ∧ statusCode (handleWebhook cfgEx controllerHandlers reqBadTok 1000 true st0).1 = 500
    ∧ ¬(statusCode (handleWebhook cfgEx controllerHandlers reqBadTok 1000 true st0).1 = 401) := by
  exact ⟨rfl, rfl, by decide⟩

theorem bad_token_rejected_before_dedup_witness :
    handleWebhook cfgEx controllerHandlers reqBadTok 1000 true st0
      = (HandlerResult.internalError ("An error occurred while processing the webhook"), st0) :=
  bad_token_rejected_before_dedup cfgEx controllerHandlers reqBadTok ("orders/create")
    ("shop.example") ("abc-1") 1000 true st0 rfl rfl rfl

/-- Claim C10: the dedup marker is written only after a successful enqueue.
Whenever handleWebhook ends in anything other than the full success path —
a validation, IP, auth, signature or replay failure, the no-handler
acknowledgement, the already-processed short-circuit, or a throwing
enqueue — the dedup store and the queue are exactly as before the request,
so a later redelivery of the same webhookId starts afresh; on the success
path exactly one job for the request's webhookId is appended and the
`processed` marker is written with a one-hour expiry. -/
theorem dedup_marked_only_after_enqueue (cfg : GatewayConfig) (handlers : List String)
    (req : WebhookRequest) (now : Int) (enqueueOk : Bool) (st : GatewayState) :
    ((handleWebhook cfg handlers req now enqueueOk st).1
        ≠ HandlerResult.success ("Webhook added to processing queue") →
      ((handleWebhook cfg handlers req now enqueueOk st).2).redis = st.redis
      ∧ ((handleWebhook cfg handlers req now enqueueOk st).2).queue = st.queue)
    ∧ ((handleWebhook cfg handlers req now enqueueOk st).1
        = HandlerResult.success ("Webhook added to processing queue") →
      ∃ topic domain webhookId job,
        extractHeaders req.headers = Except.ok (topic, domain, webhookId)
        ∧ WebhookJob.webhookId job = webhookId
        ∧ ((handleWebhook cfg handlers req now enqueueOk st).2).queue = st.queue ++ [job]
        ∧ ((handleWebhook cfg handlers req now enqueueOk st).2).redis
            = redisSet st.redis webhookId ("processed") (now + 3600000)) := by
  rcases hh : extractHeaders req.headers with msg | ⟨topic, domain, webhookId⟩
  · constructor
    · intro _
      simp [handleWebhook, hh]
    · intro hs
      simp [handleWebhook, hh] at hs
  · obtain ⟨hA, hB, hC⟩ :=
      handleWebhookTry_state cfg handlers req topic domain webhookId now enqueueOk st
    rcases hT : handleWebhookTry cfg handlers req topic domain webhookId now enqueueOk st
      with ⟨er | o, st2⟩
    · constructor
      · intro _
        have hkeep := hA er st2 hT
        simp only [handleWebhook, hh, hT]
        exact hkeep
      · intro hs
        simp only [handleWebhook, hh, hT] at hs
        cases er <;> simp [handleErrorMap] at hs
    · rcases o with _ | _ | _
      · constructor
        · intro _
          have hkeep := hB InnerOutcome.alreadyProcessed st2 hT (by simp)
          simp only [handleWebhook, hh, hT]
          exact hkeep
        · intro hs
          simp only [handleWebhook, hh, hT, HandlerResult.success.injEq] at hs
          exact absurd hs (by decide)
      · constructor
        · intro hne
          exact absurd (by simp only [handleWebhook, hh, hT]) hne
        · intro _
          obtain ⟨job, hj, hq, hr⟩ := hC st2 hT
          refine ⟨topic, domain, webhookId, job, rfl, hj, ?_, ?_⟩
          · simp only [handleWebhook, hh, hT]
            exact hq
          · simp only [handleWebhook, hh, hT]
            exact hr
      · constructor
        · intro _
          have hkeep := hB InnerOutcome.noHandler st2 hT (by simp)
          simp only [handleWebhook, hh, hT]
          exact hkeep
        · intro hs
          simp only [handleWebhook, hh, hT] at hs
          exact absurd hs (by decide)

theorem dedup_marked_only_after_enqueue_witness :
    ∃ topic domain webhookId job,
      extractHeaders reqEx.headers = Except.ok (topic, domain, webhookId)
      ∧ WebhookJob.webhookId job = webhookId
      ∧ ((handleWebhook cfgEx controllerHandlers reqEx 1000 true st0).2).queue
          = st0.queue ++ [job]
      ∧ ((handleWebhook cfgEx controllerHandlers reqEx 1000 true st0).2).redis
          = redisSet st0.redis webhookId ("processed") (1000 + 3600000) :=
  (dedup_marked_only_after_enqueue cfgEx controllerHandlers reqEx 1000 true st0).2 rfl
